import Mathlib

/-!
Verification of the portest repository (frontend TypeScript under
`frontend/src`, plus the serving core specified in the design document).

Probabilities and JS numbers are modelled as rationals (`ℚ`); integer
form values as `ℤ`.  The Python serving core (`protest/models/ensemble.py`,
`protest/models/registry.py`, `api/`) is not part of the shipped sources,
so those components are modelled from the specification; each such
definition says so in its doc comment.
-/

namespace Portest

/-! ## Frontend: `frontend/src/lib/api.ts` -/

/-- Structure `PredictionInput` from `frontend/src/lib/api.ts` (lines 3–11):
seven request fields, `combined_sizes` numeric. -/
structure PredictionInput where
  country : String
  governorate : String
  location_type : String
  demand_type : String
  protest_tactic : String
  protester_violence : String
  combined_sizes : ℤ
deriving DecidableEq, Repr

/-- Structure `OutcomePrediction` from `frontend/src/lib/api.ts` (lines 13–16). -/
structure OutcomePrediction where
  probability : ℚ
  prediction : Bool
deriving DecidableEq, Repr

/-- Structure `PredictionResponse` from `frontend/src/lib/api.ts` (lines 18–24):
the serialized prediction response, with the per-target map modelled as an
association list. -/
structure PredictionResponse where
  predictions : List (String × OutcomePrediction)
  model_id : String
  model_version : String
  cached : Bool
  timestamp : String
deriving DecidableEq, Repr

/-- The key/value pairs that `ApiClient.predict`
(`frontend/src/lib/api.ts`, lines 107–119) places into `URLSearchParams`
to build the query string, in source order; `combined_sizes` is rendered
with `toString`. -/
def predictQueryParams (input : PredictionInput) : List (String × String) :=
  [("country", input.country),
   ("governorate", input.governorate),
   ("location_type", input.location_type),
   ("demand_type", input.demand_type),
   ("protest_tactic", input.protest_tactic),
   ("protester_violence", input.protester_violence),
   ("combined_sizes", toString input.combined_sizes)]

/-! ## Frontend: `getBarColor`, two copies -/

namespace constants

/-- Function `getBarColor` from `frontend/src/lib/constants.ts` (lines 59–65). -/
def getBarColor (probability : ℚ) : String :=
  if probability ≥ 7/10 then "#bd0026"
  else if probability ≥ 5/10 then "#f03b20"
  else if probability ≥ 3/10 then "#fd8d3c"
  else if probability ≥ 15/100 then "#fecc5c"
  else "#ffffb2"

end constants

namespace methodsChart

/-- The local `getBarColor` copy in
`frontend/src/components/methods-chart.tsx` (lines 25–31). -/
def getBarColor (probability : ℚ) : String :=
  if probability ≥ 7/10 then "#bd0026"
  else if probability ≥ 5/10 then "#f03b20"
  else if probability ≥ 3/10 then "#fd8d3c"
  else if probability ≥ 15/100 then "#fecc5c"
  else "#ffffb2"

end methodsChart

/-! ## Frontend: `PredictionResults` grouping
(`components/prediction-results.tsx`, `PredictionResults`) -/

/-- The descending-probability comparison used by
`Object.entries(results.predictions).sort(([, a], [, b]) => b.probability - a.probability)`. -/
def probDesc (x y : String × OutcomePrediction) : Prop :=
  y.2.probability ≤ x.2.probability

instance : DecidableRel probDesc := fun x y =>
  inferInstanceAs (Decidable (y.2.probability ≤ x.2.probability))

instance : IsTotal (String × OutcomePrediction) probDesc :=
  ⟨fun x y => le_total y.2.probability x.2.probability⟩

instance : IsTrans (String × OutcomePrediction) probDesc :=
  ⟨fun _ _ _ h h' => le_trans h' h⟩

/-- Definition `sortedOutcomes` in `PredictionResults`: the entries of the
prediction map sorted by descending probability. -/
def sortedOutcomes (preds : List (String × OutcomePrediction)) :
    List (String × OutcomePrediction) :=
  List.insertionSort probDesc preds

/-- Definition `highRisk` in `PredictionResults`: sorted entries with
`p.probability >= 0.5`. -/
def highRisk (preds : List (String × OutcomePrediction)) :
    List (String × OutcomePrediction) :=
  (sortedOutcomes preds).filter (fun x => 5/10 ≤ x.2.probability)

/-- Definition `lowRisk` in `PredictionResults`: sorted entries with
`p.probability < 0.5`. -/
def lowRisk (preds : List (String × OutcomePrediction)) :
    List (String × OutcomePrediction) :=
  (sortedOutcomes preds).filter (fun x => x.2.probability < 5/10)

/-! ## Frontend: form submission (`parseInt(participants, 10) || 0`) -/

/-- A JavaScript `StrWhiteSpaceChar` as skipped by `parseInt`
(the characters relevant to this embedding). -/
def isJsSpace (c : Char) : Bool :=
  c = ' ' || c = '\t' || c = '\n' || c = '\r' ||
  c = Char.ofNat 11 || c = Char.ofNat 12 || c = Char.ofNat 160

/-- A decimal digit, as accepted by `parseInt(s, 10)`. -/
def isDigit10 (c : Char) : Bool :=
  '0' ≤ c && c ≤ '9'

/-- The numeric value of a decimal digit character. -/
def digitVal (c : Char) : ℕ :=
  c.toNat - '0'.toNat

/-- Horner evaluation of a run of decimal digits. -/
def natOfDigits : List Char → ℕ → ℕ
  | [], acc => acc
  | c :: cs, acc => natOfDigits cs (acc * 10 + digitVal c)

/-- JavaScript `parseInt(s, 10)`: skip leading whitespace, read an
optional sign, then the longest run of decimal digits; `none` models the
`NaN` result when that run is empty. -/
def jsParseInt10 (s : String) : Option ℤ :=
  let cs := s.data.dropWhile isJsSpace
  let signRest : ℤ × List Char :=
    match cs with
    | '-' :: cs => (-1, cs)
    | '+' :: cs => (1, cs)
    | _ => (1, cs)
  let digits := signRest.2.takeWhile isDigit10
  if digits.isEmpty then none
  else some (signRest.1 * (natOfDigits digits 0 : ℤ))

/-- JavaScript `x || 0` applied to a `parseInt` result: `NaN` (here
`none`) becomes `0`; the falsy number `0` also becomes `0`, which is the
same integer. -/
def jsOr0 : Option ℤ → ℤ
  | none => 0
  | some n => n

namespace predictionForm

/-- The `combined_sizes` value submitted by `PredictionForm.handleSubmit`
(`frontend/src/components/prediction-form.tsx`, lines 57–68):
`parseInt(participants, 10) || 0`. -/
def submitCombinedSizes (participants : String) : ℤ :=
  jsOr0 (jsParseInt10 participants)

end predictionForm

namespace predictionFormCompact

/-- The `combined_sizes` value submitted by
`PredictionFormCompact.handleSubmit`
(`components/prediction-form-compact.tsx`, lines 56–67):
`parseInt(participants, 10) || 0`. -/
def submitCombinedSizes (participants : String) : ℤ :=
  jsOr0 (jsParseInt10 participants)

end predictionFormCompact

/-! ## Serving core, modelled from the specification

The Python serving core (§2–§5 of the design document: Feature Encoder,
Base Classifier Adapter, Ensemble Aggregator, Model Registry, Prediction
Cache, Serving Facade — `protest/models/ensemble.py`,
`protest/models/registry.py` and the `api/` package) is not among the
shipped sources; the definitions below are modelled from the
specification text. -/

/-- Modelled from the spec: a structured prediction request with the
seven required fields (§6 inbound interface). -/
structure PredictionRequest where
  country : String
  governorate : String
  location_type : String
  demand_type : String
  protest_tactic : String
  protester_violence : String
  combined_sizes : ℚ
deriving DecidableEq, Repr

/-- Modelled from the spec: a `FeatureVector` (§3) — the ordered numeric
vector each base classifier consumes. -/
def FeatureVector : Type := List ℚ

/-- Modelled from the spec: a Base Classifier Adapter (§4.2) — the
uniform `predict(vector) -> mapping target -> probability` capability of
one trained classifier, an opaque function in this embedding. -/
def BaseModel : Type := FeatureVector → String → ℚ

/-- Modelled from the spec: the fixed per-model weights of a
`ModelArtifact` (§3). -/
structure Weights where
  w1 : ℚ
  w2 : ℚ
  w3 : ℚ
deriving DecidableEq, Repr

/-- The sum of the three per-model weights. -/
def Weights.sum (w : Weights) : ℚ :=
  w.w1 + w.w2 + w.w3

/-- Modelled from the spec: a `ModelArtifact` (§3) — three opaque trained
classifiers plus metadata; the training-time feature encoding frozen into
the artifact (§4.1) is carried as the opaque `encode` function, and the
per-deployment decision threshold (§3, §9) is a configuration constant of
the artifact. -/
structure ModelArtifact where
  version_id : String
  model_id : String
  m1 : BaseModel
  m2 : BaseModel
  m3 : BaseModel
  weights : Weights
  feature_columns : List String
  target_columns : List String
  threshold : ℚ
  encode : PredictionRequest → FeatureVector

/-- Modelled from the spec: `TargetPrediction` (§3):
`{probability, label}` with `label = probability ≥ threshold`. -/
structure TargetPrediction where
  probability : ℚ
  label : Bool
deriving DecidableEq, Repr

/-- Modelled from the spec: `EnsembleResult` (§3) — the ordered
per-target mapping plus the disagreement summary, model version and
computation timestamp.  The agreement value `1 - stdev` involves a square
root, so the result stores the per-target-maximal variance `maxVariance`
(a rational) and `EnsembleResult.agreement` derives the real agreement
value from it. -/
structure EnsembleResult where
  predictions : List (String × TargetPrediction)
  maxVariance : ℚ
  model_version : String
  computed_at : ℕ
deriving DecidableEq, Repr

/-- Modelled from the spec: the weighted soft vote (§4.3):
`p_final(target) = Σ_i weight_i * p_i(target)`. -/
def pFinal (w : Weights) (p1 p2 p3 : ℚ) : ℚ :=
  w.w1 * p1 + w.w2 * p2 + w.w3 * p3

/-- Modelled from the spec: the boolean call per target (§4.3):
`label(target) = p_final(target) >= threshold`. -/
def labelOf (threshold p : ℚ) : Bool :=
  threshold ≤ p

/-- The mean of the three per-model probabilities for one target. -/
def mean3 (p1 p2 p3 : ℚ) : ℚ :=
  (p1 + p2 + p3) / 3

/-- The population variance of the three per-model probabilities for one
target; its square root is the `stdev` of §4.3. -/
def variance3 (p1 p2 p3 : ℚ) : ℚ :=
  ((p1 - mean3 p1 p2 p3) ^ 2 + (p2 - mean3 p1 p2 p3) ^ 2 +
    (p3 - mean3 p1 p2 p3) ^ 2) / 3

/-- Modelled from the spec: the per-target agreement value (§4.3):
`1 - stdev({p_1(target), p_2(target), p_3(target)})`. -/
noncomputable def agreement3 (p1 p2 p3 : ℚ) : ℝ :=
  1 - Real.sqrt ((variance3 p1 p2 p3 : ℚ) : ℝ)

/-- Modelled from the spec: the Ensemble Aggregator's per-target output
(§4.3). -/
def aggregateTarget (art : ModelArtifact) (fv : FeatureVector) (t : String) :
    TargetPrediction :=
  let p := pFinal art.weights (art.m1 fv t) (art.m2 fv t) (art.m3 fv t)
  ⟨p, labelOf art.threshold p⟩

/-- The largest per-target variance across the artifact's targets;
`1 - sqrt` of it is the min-across-targets agreement of §4.3. -/
def maxVarianceOf (art : ModelArtifact) (fv : FeatureVector) : ℚ :=
  art.target_columns.foldr
    (fun t acc =>
      max (variance3 (art.m1 fv t) (art.m2 fv t) (art.m3 fv t)) acc) 0

/-- Modelled from the spec: one full run of the Ensemble Aggregator
(§4.3), producing an `EnsembleResult` over the artifact's target
columns. -/
def aggregate (art : ModelArtifact) (fv : FeatureVector) (now : ℕ) :
    EnsembleResult :=
  ⟨art.target_columns.map (fun t => (t, aggregateTarget art fv t)),
   maxVarianceOf art fv, art.version_id, now⟩

/-- Modelled from the spec: the overall agreement of an `EnsembleResult`
(§4.3): `1 - stdev` per target, summarized as the minimum across
targets, i.e. `1 - sqrt` of the maximal per-target variance. -/
noncomputable def EnsembleResult.agreement (r : EnsembleResult) : ℝ :=
  1 - Real.sqrt ((r.maxVariance : ℚ) : ℝ)

/-- Modelled from the spec: the registry error taxonomy (§4.4, §7). -/
inductive RegError where
  | NotFound
  | InvalidArtifact
  | DuplicateVersion
  | UnknownVersion
deriving DecidableEq, Repr

/-- Modelled from the spec: registry state (§3) — version → artifact
mapping plus the `active_version` pointer. -/
structure Registry where
  artifacts : List (String × ModelArtifact)
  active_version : Option String

/-- Modelled from the spec: the fresh-deployment registry state (§4.4):
nothing registered, nothing promoted. -/
def Registry.empty : Registry :=
  ⟨[], none⟩

/-- The admission tolerance on `Σ weights` used by `register` (§4.4,
"sum to 1 (±epsilon)"). -/
def epsilon : ℚ :=
  1 / 1000000

/-- Modelled from the spec: the `register` validation (§4.4): `weights`
sum to 1 (±epsilon) and `feature_columns`/`target_columns` non-empty. -/
def validArtifact (a : ModelArtifact) : Bool :=
  decide (|a.weights.sum - 1| ≤ epsilon) &&
    !a.feature_columns.isEmpty && !a.target_columns.isEmpty

/-- Modelled from the spec: `register(artifact) -> VersionId` (§4.4):
rejects invalid artifacts with `InvalidArtifact`, duplicate version ids
with `DuplicateVersion`; write-once otherwise. -/
def Registry.register (reg : Registry) (a : ModelArtifact) :
    Except RegError (Registry × String) :=
  if validArtifact a then
    if (reg.artifacts.lookup a.version_id).isSome then
      .error .DuplicateVersion
    else
      .ok (⟨(a.version_id, a) :: reg.artifacts, reg.active_version⟩,
        a.version_id)
  else .error .InvalidArtifact

/-- Modelled from the spec: `promote(version_id)` (§4.4): swaps
`active_version`, failing with `UnknownVersion` if not registered. -/
def Registry.promote (reg : Registry) (v : String) : Except RegError Registry :=
  if (reg.artifacts.lookup v).isSome then
    .ok ⟨reg.artifacts, some v⟩
  else .error .UnknownVersion

/-- Modelled from the spec: `get(version_id | "active")` (§4.4): `none`
asks for the active artifact; fails with `NotFound` if absent or if no
model was ever promoted. -/
def Registry.get (reg : Registry) (version : Option String) :
    Except RegError ModelArtifact :=
  match version with
  | some v =>
    match reg.artifacts.lookup v with
    | some a => .ok a
    | none => .error .NotFound
  | none =>
    match reg.active_version with
    | none => .error .NotFound
    | some v =>
      match reg.artifacts.lookup v with
      | some a => .ok a
      | none => .error .NotFound

/-- Modelled from the spec: a cache fingerprint (§4.5): the canonical
request fields plus the active model version. -/
def Fingerprint : Type := PredictionRequest × String

instance : DecidableEq Fingerprint :=
  inferInstanceAs (DecidableEq (PredictionRequest × String))

/-- Modelled from the spec: a `CacheEntry` (§3):
`{fingerprint, EnsembleResult, expires_at}`. -/
structure CacheEntry where
  fingerprint : Fingerprint
  result : EnsembleResult
  expires_at : ℕ
deriving DecidableEq

/-- Modelled from the spec: the Prediction Cache's fingerprint → entry
map (§4.5). -/
structure Cache where
  entries : List CacheEntry
deriving DecidableEq

/-- Modelled from the spec: cache lookup (§4.5): an entry answers only
while unexpired (`now < expires_at`). -/
def Cache.lookup (c : Cache) (fp : Fingerprint) (now : ℕ) :
    Option EnsembleResult :=
  (c.entries.find?
    (fun e => decide (e.fingerprint = fp) && decide (now < e.expires_at))).map
    (fun e => e.result)

/-- Modelled from the spec: the serialized serving answer (§6 outbound):
the ensemble result plus `model_id`, `cached` and the serving
timestamp. -/
structure ServeResponse where
  result : EnsembleResult
  model_id : String
  cached : Bool
  timestamp : ℕ
deriving DecidableEq, Repr

/-- Modelled from the spec: the Serving Facade (§2, §4.5 data flow):
fetch the active artifact (failing with `NotFound` on an empty registry),
check the cache by fingerprint, on a miss run encoder, adapters and
aggregator and store the result with expiry `now + ttl`. -/
def serve (ttl : ℕ) (reg : Registry) (cache : Cache) (now : ℕ)
    (req : PredictionRequest) : Except RegError (ServeResponse × Cache) :=
  match reg.get none with
  | .error e => .error e
  | .ok art =>
    let fp : Fingerprint := (req, art.version_id)
    match cache.lookup fp now with
    | some res =>
      .ok (⟨res, art.model_id, true, now⟩, cache)
    | none =>
      let res := aggregate art (art.encode req) now
      .ok (⟨res, art.model_id, false, now⟩,
        ⟨⟨fp, res, now + ttl⟩ :: cache.entries⟩)

/-! ## Concrete scenario data (weights `[0.4, 0.35, 0.25]`, base-model
probabilities `{0.8, 0.6, 0.7}` for `security_presence`, request from the
end-to-end scenario) -/

/-- The end-to-end scenario request:
`{country: "Iraq", governorate: "Baghdad", ...}`. -/
def demoRequest : PredictionRequest :=
  ⟨"Iraq", "Baghdad", "urban", "political", "march", "none", 500⟩

/-- The end-to-end scenario artifact: weights `[0.4, 0.35, 0.25]`, three
base models answering `0.8`, `0.6`, `0.7` for every target, threshold
`0.5`. -/
def demoArtifact : ModelArtifact where
  version_id := "v1"
  model_id := "ensemble"
  m1 := fun _ _ => 4/5
  m2 := fun _ _ => 3/5
  m3 := fun _ _ => 7/10
  weights := ⟨2/5, 7/20, 1/4⟩
  feature_columns := ["country", "governorate", "location_type",
    "demand_type", "protest_tactic", "protester_violence", "combined_sizes"]
  target_columns := ["security_presence"]
  threshold := 1/2
  encode := fun r => [r.combined_sizes]

/-- The registry holding the scenario artifact as the active version. -/
def demoRegistry : Registry :=
  ⟨[("v1", demoArtifact)], some "v1"⟩

/-- The ensemble answer the scenario produces:
`p_final = 0.705 = 141/200`, label `true`, per-target variance `1/150`. -/
def demoResult : EnsembleResult :=
  ⟨[("security_presence", ⟨141/200, true⟩)], 1/150, "v1", 0⟩

/-- The cache entry written by the scenario's first (uncached) call with
TTL 300 at time 0. -/
def demoEntry : CacheEntry :=
  ⟨(demoRequest, "v1"), demoResult, 300⟩

/-! ## Helper lemmas -/

lemma variance3_self (p : ℚ) : variance3 p p p = 0 := by
  unfold variance3 mean3
  ring

lemma variance3_nonneg (p1 p2 p3 : ℚ) : 0 ≤ variance3 p1 p2 p3 := by
  unfold variance3
  positivity

lemma variance3_pair (p q : ℚ) : variance3 p p q = 2 * (p - q) ^ 2 / 9 := by
  unfold variance3 mean3
  ring

lemma variance3_le_one (p1 p2 p3 : ℚ)
    (h1 : 0 ≤ p1) (h1' : p1 ≤ 1) (h2 : 0 ≤ p2) (h2' : p2 ≤ 1)
    (h3 : 0 ≤ p3) (h3' : p3 ≤ 1) : variance3 p1 p2 p3 ≤ 1 := by
  unfold variance3 mean3
  rw [div_le_one (by norm_num : (0:ℚ) < 3)]
  nlinarith [mul_nonneg (by linarith : (0:ℚ) ≤ 2 - (2*p1 - p2 - p3))
      (by linarith : (0:ℚ) ≤ 2*p1 - p2 - p3 + 2),
    mul_nonneg (by linarith : (0:ℚ) ≤ 2 - (2*p2 - p1 - p3))
      (by linarith : (0:ℚ) ≤ 2*p2 - p1 - p3 + 2),
    mul_nonneg (by linarith : (0:ℚ) ≤ 2 - (2*p3 - p1 - p2))
      (by linarith : (0:ℚ) ≤ 2*p3 - p1 - p2 + 2)]

lemma foldr_max_eq_zero (f : String → ℚ) (l : List String)
    (h : ∀ t ∈ l, f t = 0) :
    l.foldr (fun t acc => max (f t) acc) 0 = 0 := by
  induction l with
  | nil => rfl
  | cons a l ih =>
    simp only [List.foldr_cons]
    rw [h a (List.mem_cons_self a l), ih (fun t ht => h t (List.mem_cons_of_mem a ht))]
    simp

lemma foldr_max_bounds (f : String → ℚ) (l : List String)
    (h : ∀ t ∈ l, 0 ≤ f t ∧ f t ≤ 1) :
    0 ≤ l.foldr (fun t acc => max (f t) acc) 0 ∧
      l.foldr (fun t acc => max (f t) acc) 0 ≤ 1 := by
  induction l with
  | nil => norm_num
  | cons a l ih =>
    have ha := h a (List.mem_cons_self a l)
    have ih' := ih (fun t ht => h t (List.mem_cons_of_mem a ht))
    simp only [List.foldr_cons]
    constructor
    · exact le_trans ih'.1 (le_max_right _ _)
    · exact max_le ha.2 ih'.2

/-! ## Claim theorems -/

/-- C7: for every `PredictionInput`, the query string built by
`ApiClient.predict` carries exactly the seven required keys `country`,
`governorate`, `location_type`, `demand_type`, `protest_tactic`,
`protester_violence` and `combined_sizes`, each bound to the
corresponding input value (`combined_sizes` as its decimal string), and
no others. -/
theorem predict_query_exactly_seven_fields (input : PredictionInput) :
    (predictQueryParams input).map Prod.fst =
      ["country", "governorate", "location_type", "demand_type",
       "protest_tactic", "protester_violence", "combined_sizes"] ∧
    (predictQueryParams input).lookup "country" = some input.country ∧
    (predictQueryParams input).lookup "governorate" = some input.governorate ∧
    (predictQueryParams input).lookup "location_type" = some input.location_type ∧
    (predictQueryParams input).lookup "demand_type" = some input.demand_type ∧
    (predictQueryParams input).lookup "protest_tactic" = some input.protest_tactic ∧
    (predictQueryParams input).lookup "protester_violence" = some input.protester_violence ∧
    (predictQueryParams input).lookup "combined_sizes" =
      some (toString input.combined_sizes) := by
  refine ⟨rfl, rfl, ?_, ?_, ?_, ?_, ?_, ?_⟩ <;>
    simp [predictQueryParams, List.lookup]

/-- C9: both prediction forms submit
`combined_sizes = parseInt(participants, 10) || 0`: the two handlers
agree on every field value, the submitted value is always an integer
(the model is a total function into `ℤ`), it is `0` on the empty field
and whenever `parseInt` yields `NaN`, and it is the parsed integer
otherwise. -/
theorem forms_submit_integer_count (s : String) :
    predictionForm.submitCombinedSizes s =
      predictionFormCompact.submitCombinedSizes s ∧
    (s = "" → predictionForm.submitCombinedSizes s = 0) ∧
    (jsParseInt10 s = none → predictionForm.submitCombinedSizes s = 0) ∧
    (∀ n : ℤ, jsParseInt10 s = some n →
      predictionForm.submitCombinedSizes s = n) := by
  refine ⟨rfl, ?_, ?_, ?_⟩
  · rintro rfl
    decide
  · intro h
    simp [predictionForm.submitCombinedSizes, h, jsOr0]
  · intro n h
    simp [predictionForm.submitCombinedSizes, h, jsOr0]

/-- C9 witness: concrete field values — a non-numeric string submits
`0`, a whitespace-and-digits string submits its parsed integer. -/
theorem forms_submit_integer_count_witness :
    predictionForm.submitCombinedSizes "abc" = 0 ∧
    predictionForm.submitCombinedSizes " 42xyz" = 42 ∧
    predictionForm.submitCombinedSizes "" = 0 :=
  ⟨(forms_submit_integer_count "abc").2.2.1 (by decide),
   (forms_submit_integer_count " 42xyz").2.2.2 42 (by decide),
   (forms_submit_integer_count "").2.1 rfl⟩

/-- C10: the exported `getBarColor` of `lib/constants.ts` and the local
copy in `methods-chart.tsx` are extensionally equal, and on each of the
five probability intervals they return the stated colour — so the result
is always one of the five colour strings. -/
theorem getBarColor_copies_extensionally_equal (p : ℚ) :
    constants.getBarColor p = methodsChart.getBarColor p ∧
    (7/10 ≤ p → constants.getBarColor p = "#bd0026") ∧
    (5/10 ≤ p → p < 7/10 → constants.getBarColor p = "#f03b20") ∧
    (3/10 ≤ p → p < 5/10 → constants.getBarColor p = "#fd8d3c") ∧
    (15/100 ≤ p → p < 3/10 → constants.getBarColor p = "#fecc5c") ∧
    (p < 15/100 → constants.getBarColor p = "#ffffb2") ∧
    constants.getBarColor p ∈
      ["#bd0026", "#f03b20", "#fd8d3c", "#fecc5c", "#ffffb2"] := by
  unfold constants.getBarColor methodsChart.getBarColor
  refine ⟨rfl, ?_, ?_, ?_, ?_, ?_, ?_⟩ <;>
    · intros
      split_ifs <;> first | rfl | (exfalso; linarith) | simp

/-- C10 witness: the shared colour at a concrete probability in each of
two buckets. -/
theorem getBarColor_copies_extensionally_equal_witness :
    constants.getBarColor (3/5) = "#f03b20" ∧
    constants.getBarColor (1/10) = "#ffffb2" :=
  ⟨(getBarColor_copies_extensionally_equal (3/5)).2.2.1
      (by norm_num) (by norm_num),
   (getBarColor_copies_extensionally_equal (1/10)).2.2.2.2.2.1
      (by norm_num)⟩

/-- C8: `PredictionResults` partitions the prediction entries: every
entry lands in exactly one of `highRisk` (probability ≥ 0.5) and
`lowRisk` (probability < 0.5), the two groups are disjoint, together
they are a permutation of the full prediction map, and each group is
ordered by non-increasing probability. -/
theorem predictionResults_partition (preds : List (String × OutcomePrediction)) :
    (∀ x ∈ preds,
      (x ∈ highRisk preds ∧ x ∉ lowRisk preds) ∨
      (x ∈ lowRisk preds ∧ x ∉ highRisk preds)) ∧
    (∀ x ∈ highRisk preds, x ∉ lowRisk preds) ∧
    (highRisk preds ++ lowRisk preds).Perm preds ∧
    (highRisk preds).Pairwise probDesc ∧
    (lowRisk preds).Pairwise probDesc := by
  have hperm : (sortedOutcomes preds).Perm preds :=
    List.perm_insertionSort probDesc preds
  have hmemHigh : ∀ x, x ∈ highRisk preds ↔
      x ∈ sortedOutcomes preds ∧ 5/10 ≤ x.2.probability := by
    intro x
    simp [highRisk, List.mem_filter]
  have hmemLow : ∀ x, x ∈ lowRisk preds ↔
      x ∈ sortedOutcomes preds ∧ x.2.probability < 5/10 := by
    intro x
    simp [lowRisk, List.mem_filter]
  have hlow_eq : lowRisk preds =
      (sortedOutcomes preds).filter
        (fun x => !(decide (5/10 ≤ x.2.probability))) := by
    unfold lowRisk
    refine List.filter_congr ?_
    intro x _
    rw [← decide_not, decide_eq_decide]
    exact not_le.symm
  have hsorted : (sortedOutcomes preds).Pairwise probDesc :=
    List.sorted_insertionSort probDesc preds
  refine ⟨?_, ?_, ?_, ?_, ?_⟩
  · intro x hx
    have hx' : x ∈ sortedOutcomes preds := hperm.mem_iff.mpr hx
    rcases le_or_lt (5/10 : ℚ) x.2.probability with h | h
    · exact Or.inl ⟨(hmemHigh x).mpr ⟨hx', h⟩,
        fun hc => absurd ((hmemLow x).mp hc).2 (not_lt.mpr h)⟩
    · exact Or.inr ⟨(hmemLow x).mpr ⟨hx', h⟩,
        fun hc => absurd ((hmemHigh x).mp hc).2 (not_le.mpr h)⟩
  · intro x hx hc
    exact absurd ((hmemLow x).mp hc).2 (not_lt.mpr ((hmemHigh x).mp hx).2)
  · have h1 : highRisk preds ++ lowRisk preds =
        (sortedOutcomes preds).filter
            (fun x => decide (5/10 ≤ x.2.probability)) ++
          (sortedOutcomes preds).filter
            (fun x => !(decide (5/10 ≤ x.2.probability))) := by
      rw [hlow_eq]; rfl
    rw [h1]
    exact (List.filter_append_perm _ (sortedOutcomes preds)).trans hperm
  · exact hsorted.filter _
  · exact hsorted.filter _

/-- C8 witness: on a concrete two-entry prediction map, the 0.75 entry
is in the higher-risk group only. -/
theorem predictionResults_partition_witness :
    (("a", OutcomePrediction.mk (3/4) true) ∈
        highRisk [("a", ⟨3/4, true⟩), ("b", ⟨1/4, false⟩)] ∧
      ("a", OutcomePrediction.mk (3/4) true) ∉
        lowRisk [("a", ⟨3/4, true⟩), ("b", ⟨1/4, false⟩)]) ∨
    (("a", OutcomePrediction.mk (3/4) true) ∈
        lowRisk [("a", ⟨3/4, true⟩), ("b", ⟨1/4, false⟩)] ∧
      ("a", OutcomePrediction.mk (3/4) true) ∉
        highRisk [("a", ⟨3/4, true⟩), ("b", ⟨1/4, false⟩)]) :=
  (predictionResults_partition
    [("a", ⟨3/4, true⟩), ("b", ⟨1/4, false⟩)]).1 _
    (List.mem_cons_self _ _)

/-- C1: the end-to-end scenario — with weights `[0.4, 0.35, 0.25]` and
per-model probabilities `{0.8, 0.6, 0.7}` for `security_presence`, the
aggregator returns exactly `p_final = 0.705 = 141/200` with label `true`
(threshold `0.5`); registering and promoting the artifact and serving the
Iraq/Baghdad request through the facade yields precisely that target
prediction. -/
theorem endToEnd_scenario_exact :
    pFinal ⟨2/5, 7/20, 1/4⟩ (4/5) (3/5) (7/10) = 141/200 ∧
    (141/200 : ℚ) = 705/1000 ∧
    labelOf (1/2) (141/200) = true ∧
    Registry.empty.register demoArtifact =
      .ok (⟨[("v1", demoArtifact)], none⟩, "v1") ∧
    Registry.promote ⟨[("v1", demoArtifact)], none⟩ "v1" = .ok demoRegistry ∧
    serve 300 demoRegistry ⟨[]⟩ 0 demoRequest =
      .ok (⟨demoResult, "ensemble", false, 0⟩, ⟨[demoEntry]⟩) ∧
    demoResult.predictions.lookup "security_presence" =
      some ⟨141/200, true⟩ := by
  refine ⟨by norm_num [pFinal], by norm_num, ?_, ?_, ?_, ?_, ?_⟩
  · norm_num [labelOf]
  · norm_num [Registry.register, validArtifact, Registry.empty,
      demoArtifact, Weights.sum, epsilon, List.lookup]
  · norm_num [Registry.promote, demoRegistry, demoArtifact, List.lookup]
  · norm_num [serve, demoRegistry, Registry.get, List.lookup, Cache.lookup,
      List.find?, aggregate, aggregateTarget, maxVarianceOf, pFinal, labelOf,
      variance3, mean3, demoArtifact, demoResult, demoEntry]
  · norm_num [demoResult, List.lookup]

/-- C5: on a registry where no artifact has ever been promoted
(`active_version = none`, the fresh-deployment state), every prediction
call through the Serving Facade fails with the typed error `NotFound` —
the `Except` result carries no default or garbage answer. -/
theorem empty_registry_predicts_NotFound (ttl : ℕ) (reg : Registry)
    (c : Cache) (now : ℕ) (req : PredictionRequest)
    (h : reg.active_version = none) :
    serve ttl reg c now req = .error .NotFound := by
  obtain ⟨arts, av⟩ := reg
  subst h
  rfl

/-- C5 witness: the empty registry rejects the scenario request with
`NotFound`. -/
theorem empty_registry_predicts_NotFound_witness :
    serve 300 Registry.empty ⟨[]⟩ 0 demoRequest = .error .NotFound :=
  empty_registry_predicts_NotFound 300 Registry.empty ⟨[]⟩ 0 demoRequest rfl

/-- C2 counterexample: weights summing to 1 do not alone keep `p_final`
in `[0,1]`.  The weights `(2, -1, 0)` sum to 1 and pass the registry's
admission check (which validates only the sum and non-empty columns),
the probabilities `(1, 0, 0)` all lie in `[0,1]`, yet
`p_final = 2 > 1`. -/
theorem pFinal_sum_one_not_sufficient :
    Weights.sum ⟨2, -1, 0⟩ = 1 ∧
    validArtifact { demoArtifact with weights := ⟨2, -1, 0⟩ } = true ∧
    ((0:ℚ) ≤ 1 ∧ (1:ℚ) ≤ 1 ∧ (0:ℚ) ≤ 0 ∧ (0:ℚ) ≤ 1) ∧
    pFinal ⟨2, -1, 0⟩ 1 0 0 = 2 ∧
    ¬ (pFinal ⟨2, -1, 0⟩ 1 0 0 ≤ 1) :=
  ⟨by norm_num [Weights.sum],
   by norm_num [validArtifact, demoArtifact, Weights.sum, epsilon],
   by norm_num, by norm_num [pFinal], by norm_num [pFinal]⟩

/-- C2 (amended): if the three weights are nonnegative and sum to 1, and
each base-model probability lies in `[0,1]`, then the aggregated
`p_final` lies in `[0,1]`. -/
theorem pFinal_in_unit_interval (w : Weights) (p1 p2 p3 : ℚ)
    (hw1 : 0 ≤ w.w1) (hw2 : 0 ≤ w.w2) (hw3 : 0 ≤ w.w3)
    (hsum : w.sum = 1)
    (hp1 : 0 ≤ p1) (hp1' : p1 ≤ 1) (hp2 : 0 ≤ p2) (hp2' : p2 ≤ 1)
    (hp3 : 0 ≤ p3) (hp3' : p3 ≤ 1) :
    0 ≤ pFinal w p1 p2 p3 ∧ pFinal w p1 p2 p3 ≤ 1 := by
  obtain ⟨w1, w2, w3⟩ := w
  simp only [Weights.sum] at hsum
  simp only [pFinal]
  constructor
  · positivity
  · nlinarith [mul_le_mul_of_nonneg_left hp1' hw1,
      mul_le_mul_of_nonneg_left hp2' hw2,
      mul_le_mul_of_nonneg_left hp3' hw3]

/-- C2 (amended) witness: the bound at the scenario's weights and
probabilities. -/
theorem pFinal_in_unit_interval_witness :
    0 ≤ pFinal ⟨2/5, 7/20, 1/4⟩ (4/5) (3/5) (7/10) ∧
      pFinal ⟨2/5, 7/20, 1/4⟩ (4/5) (3/5) (7/10) ≤ 1 :=
  pFinal_in_unit_interval ⟨2/5, 7/20, 1/4⟩ (4/5) (3/5) (7/10)
    (by norm_num) (by norm_num) (by norm_num) (by norm_num [Weights.sum])
    (by norm_num) (by norm_num) (by norm_num) (by norm_num)
    (by norm_num) (by norm_num)

/-- C4: calling the Serving Facade twice with the identical request,
against the same registry (so the same `active_version`), where the
first call computes (no live cache entry for the fingerprint) and the
second call falls within the entry's TTL window, returns the identical
`EnsembleResult` contents and the second response is marked
`cached = true`. -/
theorem serve_idempotent_within_ttl
    (ttl : ℕ) (reg : Registry) (c : Cache) (t1 t2 : ℕ)
    (req : PredictionRequest) (art : ModelArtifact)
    (r1 : ServeResponse) (c1 : Cache)
    (hget : reg.get none = .ok art)
    (hmiss : c.lookup (req, art.version_id) t1 = none)
    (h1 : serve ttl reg c t1 req = .ok (r1, c1))
    (ht : t2 < t1 + ttl) :
    serve ttl reg c1 t2 req =
      .ok (⟨r1.result, r1.model_id, true, t2⟩, c1) := by
  rw [serve, hget] at h1
  simp only [hmiss] at h1
  obtain ⟨hr1, hc1⟩ := Prod.mk.injEq .. ▸ Except.ok.inj h1
  rw [serve, hget, ← hc1]
  have hfind : Cache.lookup
      ⟨⟨(req, art.version_id), aggregate art (art.encode req) t1,
        t1 + ttl⟩ :: c.entries⟩ (req, art.version_id) t2 =
      some (aggregate art (art.encode req) t1) := by
    simp [Cache.lookup, List.find?, ht]
  simp only [hfind, ← hr1]

/-- C4 witness: the scenario request served twice — once at time 0 from
an empty cache, once at time 1 — returns the same `EnsembleResult` with
`cached = true` the second time. -/
theorem serve_idempotent_within_ttl_witness :
    serve 300 demoRegistry ⟨[demoEntry]⟩ 1 demoRequest =
      .ok (⟨demoResult, "ensemble", true, 1⟩, ⟨[demoEntry]⟩) :=
  serve_idempotent_within_ttl 300 demoRegistry ⟨[]⟩ 0 1 demoRequest
    demoArtifact ⟨demoResult, "ensemble", false, 0⟩ ⟨[demoEntry]⟩
    (by norm_num [Registry.get, demoRegistry, List.lookup])
    (by simp [Cache.lookup, List.find?])
    (by norm_num [serve, demoRegistry, Registry.get, List.lookup,
      Cache.lookup, List.find?, aggregate, aggregateTarget, maxVarianceOf,
      pFinal, labelOf, variance3, mean3, demoArtifact, demoResult,
      demoEntry])
    (by norm_num)

/-- C3 counterexample: under the aggregator's disagreement formula
`agreement = 1 - stdev`, the probabilities `{0.9, 0.1, 0.5}` have
variance `8/75`, so their agreement exceeds `2/3` — it is not near 0. -/
theorem agreement_not_near_zero_at_example :
    variance3 (9/10) (1/10) (1/2) = 8/75 ∧
    (2/3 : ℝ) < agreement3 (9/10) (1/10) (1/2) := by
  have hv : variance3 (9/10) (1/10) (1/2) = 8/75 := by
    norm_num [variance3, mean3]
  refine ⟨hv, ?_⟩
  unfold agreement3
  rw [hv]
  have hc : (((8:ℚ)/75 : ℚ) : ℝ) = 8/75 := by norm_num
  have h1 : Real.sqrt (((8:ℚ)/75 : ℚ) : ℝ) < 1/3 := by
    rw [hc, Real.sqrt_lt' (by norm_num : (0:ℝ) < 1/3)]
    norm_num
  linarith

/-- C3 (amended): the agreement value is 1 exactly when the three base
models agree — per target, identical probabilities give agreement 1, and
a whole result whose targets all have identical per-model probabilities
has overall agreement 1; agreement is monotonically lower as the
variance of the three probabilities grows; a single sharply-disagreeing
classifier already forces agreement strictly below 1 (no outlier
rejection); and the example `{0.9, 0.1, 0.5}` yields agreement
`1 - sqrt(8/75) ≈ 0.673` — strictly below 1, though not near 0. -/
theorem agreement_reflects_disagreement :
    (∀ p : ℚ, agreement3 p p p = 1) ∧
    (∀ a b c d e f : ℚ, variance3 a b c ≤ variance3 d e f →
      agreement3 d e f ≤ agreement3 a b c) ∧
    (∀ p q : ℚ, p ≠ q → agreement3 p p q < 1) ∧
    (agreement3 (9/10) (1/10) (1/2) = 1 - Real.sqrt (8/75) ∧
      (67/100 : ℝ) < agreement3 (9/10) (1/10) (1/2) ∧
      agreement3 (9/10) (1/10) (1/2) < (68/100 : ℝ)) ∧
    (∀ (art : ModelArtifact) (fv : FeatureVector) (now : ℕ),
      (∀ t ∈ art.target_columns,
        art.m1 fv t = art.m2 fv t ∧ art.m2 fv t = art.m3 fv t) →
      (aggregate art fv now).agreement = 1) := by
  have hvala : ∀ p1 p2 p3 : ℚ, agreement3 p1 p2 p3 =
      1 - Real.sqrt ((variance3 p1 p2 p3 : ℚ) : ℝ) := fun _ _ _ => rfl
  have hex : variance3 (9/10) (1/10) (1/2) = 8/75 := by
    norm_num [variance3, mean3]
  have hcast : (((8:ℚ)/75 : ℚ) : ℝ) = 8/75 := by norm_num
  refine ⟨?_, ?_, ?_, ⟨?_, ?_, ?_⟩, ?_⟩
  · intro p
    rw [hvala, variance3_self]
    simp
  · intro a b c d e f h
    rw [hvala, hvala]
    have : Real.sqrt ((variance3 a b c : ℚ) : ℝ) ≤
        Real.sqrt ((variance3 d e f : ℚ) : ℝ) :=
      Real.sqrt_le_sqrt (by exact_mod_cast h)
    linarith
  · intro p q hpq
    rw [hvala]
    have hpos : (0:ℚ) < variance3 p p q := by
      rw [variance3_pair]
      have : p - q ≠ 0 := sub_ne_zero.mpr hpq
      positivity
    have : 0 < Real.sqrt ((variance3 p p q : ℚ) : ℝ) :=
      Real.sqrt_pos.mpr (by exact_mod_cast hpos)
    linarith
  · rw [hvala, hex, hcast]
  · rw [hvala, hex, hcast]
    have : Real.sqrt (8/75) < 33/100 := by
      rw [Real.sqrt_lt' (by norm_num : (0:ℝ) < 33/100)]
      norm_num
    linarith
  · rw [hvala, hex, hcast]
    have : (32:ℝ)/100 < Real.sqrt (8/75) := by
      rw [Real.lt_sqrt (by norm_num : (0:ℝ) ≤ 32/100)]
      norm_num
    linarith
  · intro art fv now h
    show (1 : ℝ) - Real.sqrt (((aggregate art fv now).maxVariance : ℚ) : ℝ) = 1
    have hmax : (aggregate art fv now).maxVariance = 0 := by
      show maxVarianceOf art fv = 0
      unfold maxVarianceOf
      refine foldr_max_eq_zero _ _ ?_
      intro t ht
      obtain ⟨h12, h23⟩ := h t ht
      rw [h12, h23, variance3_self]
    rw [hmax]
    simp

/-- C3 (amended) witness: concrete instances — identical probabilities
`0.5` give agreement 1, `(0.2, 0.2, 0.7)` has a single disagreeing
classifier and agreement below 1, monotonicity at concrete variances,
and a constant-output artifact aggregates to agreement 1. -/
theorem agreement_reflects_disagreement_witness :
    agreement3 (1/2) (1/2) (1/2) = 1 ∧
    agreement3 (9/10) (1/10) (1/2) ≤ agreement3 (1/2) (1/2) (1/2) ∧
    agreement3 (2/10) (2/10) (7/10) < 1 :=
  ⟨agreement_reflects_disagreement.1 (1/2),
   agreement_reflects_disagreement.2.1 (1/2) (1/2) (1/2)
     (9/10) (1/10) (1/2)
     (by norm_num [variance3, mean3]),
   agreement_reflects_disagreement.2.2.1 (2/10) (7/10) (by norm_num)⟩

/-- The five serialized components of a `PredictionResponse`, in
declaration order. -/
def predictionResponseFields (r : PredictionResponse) :
    List (String × OutcomePrediction) × String × String × Bool × String :=
  (r.predictions, r.model_id, r.model_version, r.cached, r.timestamp)

/-- C6: every `EnsembleResult` produced by the aggregator from in-range
base-model probabilities has agreement in `[0,1]` (with 1 when all base
models fully agree, by `agreement_reflects_disagreement`), and the
serialized `PredictionResponse` consists of exactly the five components
`predictions`, `model_id`, `model_version`, `cached`, `timestamp`: the
projection onto those five is a bijection. -/
theorem ensemble_agreement_bounded_and_response_five_fields :
    (∀ (art : ModelArtifact) (fv : FeatureVector) (now : ℕ),
      (∀ t ∈ art.target_columns,
        (0 ≤ art.m1 fv t ∧ art.m1 fv t ≤ 1) ∧
        (0 ≤ art.m2 fv t ∧ art.m2 fv t ≤ 1) ∧
        (0 ≤ art.m3 fv t ∧ art.m3 fv t ≤ 1)) →
      0 ≤ (aggregate art fv now).agreement ∧
        (aggregate art fv now).agreement ≤ 1) ∧
    Function.Bijective predictionResponseFields := by
  constructor
  · intro art fv now h
    have hbounds : 0 ≤ maxVarianceOf art fv ∧ maxVarianceOf art fv ≤ 1 := by
      unfold maxVarianceOf
      refine foldr_max_bounds _ _ ?_
      intro t ht
      obtain ⟨⟨a1, a1'⟩, ⟨a2, a2'⟩, a3, a3'⟩ := h t ht
      exact ⟨variance3_nonneg _ _ _, variance3_le_one _ _ _ a1 a1' a2 a2' a3 a3'⟩
    have hagg : (aggregate art fv now).agreement =
        1 - Real.sqrt ((maxVarianceOf art fv : ℚ) : ℝ) := rfl
    rw [hagg]
    constructor
    · have : Real.sqrt ((maxVarianceOf art fv : ℚ) : ℝ) ≤ 1 :=
        Real.sqrt_le_one.mpr (by exact_mod_cast hbounds.2)
      linarith
    · have : 0 ≤ Real.sqrt ((maxVarianceOf art fv : ℚ) : ℝ) :=
        Real.sqrt_nonneg _
      linarith
  · constructor
    · intro a b hab
      obtain ⟨ap, ai, av, ac, at'⟩ := a
      obtain ⟨bp, bi, bv, bc, bt⟩ := b
      simpa [predictionResponseFields] using hab
    · rintro ⟨p, i, v, c, t⟩
      exact ⟨⟨p, i, v, c, t⟩, rfl⟩

/-- C6 witness: the bound evaluated at the scenario artifact, whose
base-model outputs `0.8`, `0.6`, `0.7` are all in `[0,1]`. -/
theorem ensemble_agreement_bounded_witness :
    0 ≤ (aggregate demoArtifact [] 0).agreement ∧
      (aggregate demoArtifact [] 0).agreement ≤ 1 :=
  ensemble_agreement_bounded_and_response_five_fields.1 demoArtifact [] 0
    (by intro t ht; norm_num [demoArtifact])

end Portest
